import Mathlib

/-!
Verification of the azure-computer-vision demo scripts.

Shallow embedding of the repository code (src/main.py, src/OCR.py):
pure data flow is translated into Lean functions; environment access,
HTTP transport and the remote analysis result are passed in explicitly
as parameters; console output and in-place image mutation are recorded
in explicit outcome structures.  Floating-point scores from the JSON
responses are modelled as rationals: the code only compares and copies
them, and the order embedding of (non-NaN) doubles into the rationals
is exact for comparisons.
-/

set_option autoImplicit false

/-! ## Axis-aligned rectangles and OCR bounding boxes (main.py, demo_ocr) -/

/-- An axis-aligned rectangle, as the demo passes to the renderer:
`box = [x, y, w, h]`. -/
structure Rect where
  x : Int
  y : Int
  w : Int
  h : Int
deriving DecidableEq, Repr

/-- An OCR line `boundingBox` of 8 numbers, i.e. 4 points
(x1,y1),(x2,y2),(x3,y3),(x4,y4); list index i of the JSON array is
field number i here (index 0 = x1, 1 = y1, 2 = x2, 5 = y3, ...). -/
structure BBox8 where
  x1 : Int
  y1 : Int
  x2 : Int
  y2 : Int
  x3 : Int
  y3 : Int
  x4 : Int
  y4 : Int
deriving DecidableEq, Repr

/-- The rectangle demo_ocr derives from a line bounding box
(main.py lines 237-241):
`x = bb[0]; y = bb[1]; w = bb[2] - x; h = bb[5] - y`. -/
def ocrDerivedRect (bb : BBox8) : Rect :=
  { x := bb.x1, y := bb.y1, w := bb.x2 - bb.x1, h := bb.y3 - bb.y1 }

/-- Modelled from the spec: the minimal enclosing axis-aligned rectangle
of the 4-point polygon, `x = min x-coords, y = min y-coords,
w = max_x - x, h = max_y - y`.  Stated from the spec wording to compare
against `ocrDerivedRect`, which is translated from the code. -/
def specMinEnclosingRect (bb : BBox8) : Rect :=
  { x := min (min bb.x1 bb.x2) (min bb.x3 bb.x4),
    y := min (min bb.y1 bb.y2) (min bb.y3 bb.y4),
    w := max (max bb.x1 bb.x2) (max bb.x3 bb.x4) - min (min bb.x1 bb.x2) (min bb.x3 bb.x4),
    h := max (max bb.y1 bb.y2) (max bb.y3 bb.y4) - min (min bb.y1 bb.y2) (min bb.y3 bb.y4) }

/-! ## Configuration loading (main.py lines 32-33, OCR.py lines 12-18) -/

/-- Python truthiness of an optional string: `None` and `""` are falsy.
This is the test `if not endpoint or not key` applies to `os.getenv`
results in OCR.py. -/
def pyTruthy : Option String → Bool
  | none => false
  | some s => !s.isEmpty

/-- Outcome of the module-level configuration load in main.py. -/
inductive ConfigOutcome where
  | ok (endpoint key : String)
  | keyError (name : String)
deriving DecidableEq, Repr

/-- main.py lines 32-33: `ENDPOINT = os.environ["VISION_ENDPOINT"]`,
`API_KEY = os.environ["VISION_KEY"]`.  `os.environ[k]` raises `KeyError`
when the variable is absent, but accepts any present value, the empty
string included. -/
def mainConfigLoad (env : String → Option String) : ConfigOutcome :=
  match env "VISION_ENDPOINT" with
  | none => .keyError "VISION_ENDPOINT"
  | some e =>
    match env "VISION_KEY" with
    | none => .keyError "VISION_KEY"
    | some k => .ok e k

/-! ## The analyze_image call (main.py lines 77-118) -/

/-- The HTTP response the transport hands back (transport success). -/
structure HttpResponse where
  status : Nat
  body : String
deriving DecidableEq, Repr

/-- Default feature list of analyze_image (main.py line 89). -/
def defaultFeatures : List String := ["tags", "objects", "caption"]

/-- main.py lines 88-89: `if not features: features = [...]` — the
default applies to an omitted argument (Python default `None`) and to
an empty list alike, by Python truthiness. -/
def effectiveFeatures : Option (List String) → List String
  | none => defaultFeatures
  | some [] => defaultFeatures
  | some fs => fs

/-- main.py line 93: `",".join(features)`. -/
def featuresParam (features : Option (List String)) : String :=
  String.intercalate "," (effectiveFeatures features)

/-- The outbound request analyze_image builds (main.py lines 91-96). -/
structure OutboundRequest where
  url : String
  features : String
  language : String
  genderNeutral : String
deriving DecidableEq, Repr

/-- `response.raise_for_status()` raises `HTTPError` exactly for
4xx and 5xx status codes. -/
def raiseForStatusFails (status : Nat) : Bool :=
  decide (400 ≤ status ∧ status < 600)

/-- Observable outcome of one analyze_image call: the single request it
issued, how many HTTP requests were made, the value returned to the
caller, and the console lines printed. -/
structure AnalyzeOutcome where
  request : OutboundRequest
  httpRequests : Nat
  result : Option String
  printed : List String
deriving DecidableEq, Repr

/-- main.py lines 77-118: analyze_image builds the query parameters,
posts the image once, and calls `raise_for_status`.  Any exception is
caught by the blanket `except`, which prints
`f"Error in analyze_image: {e}"` (the `HTTPError` text contains the
status code, not the response body) and returns `None`.  On success the
parsed JSON body is returned.  Exactly one POST is issued either way. -/
def analyze_image (endpoint : String) (features : Option (List String))
    (resp : HttpResponse) : AnalyzeOutcome :=
  let req : OutboundRequest :=
    { url := endpoint ++ "computervision/imageanalysis:analyze",
      features := featuresParam features,
      language := "en",
      genderNeutral := "false" }
  let failed := raiseForStatusFails resp.status
  { request := req,
    httpRequests := 1,
    result := if failed then none else some resp.body,
    printed :=
      if failed then ["Error in analyze_image: " ++ toString resp.status ++ " Error"]
      else [] }

/-! ## The OCR sample (src/OCR.py) -/

/-- A word of a read-result line (azure SDK `DetectedTextWord`). -/
structure DetectedWord where
  text : String
  bounding_polygon : List (Int × Int)
  confidence : ℚ
deriving DecidableEq, Repr

/-- A line of a read-result block (azure SDK `DetectedTextLine`). -/
structure OcrLine where
  text : String
  bounding_polygon : List (Int × Int)
  words : List DetectedWord
deriving DecidableEq, Repr

/-- A block of the read result. -/
structure OcrBlock where
  lines : List OcrLine
deriving DecidableEq, Repr

/-- The read (OCR) part of an analysis result. -/
structure ReadResult where
  blocks : List OcrBlock
deriving DecidableEq, Repr

/-- The caption part of an analysis result. -/
structure CaptionResult where
  text : String
  confidence : ℚ
deriving DecidableEq, Repr

/-- The part of the SDK analysis result OCR.py consumes: `result.caption`
and `result.read`, each `None` when not returned. -/
structure ImageAnalysisResult where
  caption : Option CaptionResult
  read : Option ReadResult
deriving DecidableEq, Repr

/-- One console print of OCR.py, with the dynamic data of the f-string
at that print site (float formatting itself is a presentation detail
below this model). -/
inductive PrintEvent where
  | header (s : String)
  | captionLine (text : String) (confidence : ℚ)
  | readLine (text : String) (polygon : List (Int × Int))
  | readWord (text : String) (polygon : List (Int × Int)) (confidence : ℚ)
deriving DecidableEq, Repr

/-- Outcome of running OCR.py's `OCR()`: either the config check exits
the process before any request, or the body runs and either finishes or
dies with `IndexError` on `result.read.blocks[0]`.  `httpRequests`
counts calls to `client.analyze`. -/
inductive OCROutcome where
  | configExit (printed : List PrintEvent)
  | indexError (printed : List PrintEvent) (httpRequests : Nat)
  | done (printed : List PrintEvent) (httpRequests : Nat)
deriving DecidableEq, Repr

/-- Number of HTTP requests an OCR.py run issued. -/
def OCROutcome.requestCount : OCROutcome → Nat
  | .configExit _ => 0
  | .indexError _ n => n
  | .done _ n => n

/-- Console events printed for one OCR line and its words
(OCR.py lines 47-49). -/
def lineEvents (l : OcrLine) : List PrintEvent :=
  PrintEvent.readLine l.text l.bounding_polygon ::
    l.words.map (fun w => PrintEvent.readWord w.text w.bounding_polygon w.confidence)

/-- Header and caption events printed before the read lines
(OCR.py lines 37-44): the results header, the caption header, the
caption line when `result.caption is not None`, and the read header. -/
def captionEvents (res : ImageAnalysisResult) : List PrintEvent :=
  [PrintEvent.header "Image analysis results:", PrintEvent.header " Caption:"] ++
    (match res.caption with
     | some c => [PrintEvent.captionLine c.text c.confidence]
     | none => []) ++
    [PrintEvent.header " Read:"]

/-- OCR.py lines 9-49, with the environment and the remote analysis
result passed in.  `if not endpoint or not key` prints two messages and
calls `exit()` before the client is built (zero requests).  Otherwise
one `client.analyze` call is made; printing then walks
`result.read.blocks[0].lines` whenever `result.read is not None`,
which raises `IndexError` when `blocks` is empty, and never touches any
block after the first. -/
def OCR (env : String → Option String) (res : ImageAnalysisResult) : OCROutcome :=
  if pyTruthy (env "VISION_ENDPOINT") = false ∨ pyTruthy (env "VISION_KEY") = false then
    .configExit
      [PrintEvent.header "Missing environment variable VISION_ENDPOINT or VISION_KEY",
       PrintEvent.header "Set them before running this sample."]
  else
    match res.read with
    | none => .done (captionEvents res) 1
    | some r =>
      match r.blocks with
      | [] => .indexError (captionEvents res) 1
      | b :: _ => .done (captionEvents res ++ b.lines.flatMap lineEvents) 1

/-! ## Dominant emotion (main.py, demo_face_detection line 316) -/

/-- Python `max(items, key=lambda x: x[1])` on a nonempty list of
(label, score) pairs: fold keeping the current maximum and replacing it
only on a strictly greater key, so the first of several equal maxima is
kept. -/
def pyMaxSnd (x : String × ℚ) (xs : List (String × ℚ)) : String × ℚ :=
  xs.foldl (fun best q => if q.2 > best.2 then q else best) x

/-- main.py line 316:
`max(face["faceAttributes"]["emotion"].items(), key=lambda x: x[1])[0]`.
The emotion dict is modelled as a list of pairs in iteration
(= insertion) order; Python `max` on an empty iterable raises
`ValueError`, hence `none`. -/
def dominantEmotion : List (String × ℚ) → Option String
  | [] => none
  | x :: xs => some (pyMaxSnd x xs).1

/-! ## The face-detection demo report (main.py lines 295-336) -/

/-- A face object of the face-detect response, with the fields the demo
reads. -/
structure Face where
  age : ℚ
  gender : String
  emotion : List (String × ℚ)
  rect : Rect
deriving DecidableEq, Repr

/-- Python exceptions the face loop can raise. -/
inductive PyRuntimeError where
  | valueError
deriving DecidableEq, Repr

/-- One console print of demo_face_detection. -/
inductive FaceEvent where
  | failedOrNone
  | detectedCount (n : Nat)
  | faceLine (idx : Nat) (age : ℚ) (gender : String) (emotion : String)
deriving DecidableEq, Repr

/-- Python truthiness of `face_results`: falsy when `None` (the request
failed) and also when the empty list (zero faces detected). -/
def pyTruthyList {α : Type} : Option (List α) → Bool
  | none => false
  | some [] => false
  | some (_ :: _) => true

/-- The per-face print lines of the `for i, face in enumerate(...)` loop
(main.py lines 312-325); `max` on an empty emotion dict raises
`ValueError`. -/
def faceEventsOf : List Face → Nat → Except PyRuntimeError (List FaceEvent)
  | [], _ => .ok []
  | f :: fs, i =>
    match dominantEmotion f.emotion with
    | none => .error .valueError
    | some emo =>
      match faceEventsOf fs (i + 1) with
      | .error e => .error e
      | .ok rest => .ok (FaceEvent.faceLine (i + 1) f.age f.gender emo :: rest)

/-- main.py lines 303-325, the console report of demo_face_detection
given the parsed detect_faces value (`None` on failure, else the face
list): `if not face_results:` prints one combined message and returns;
otherwise the count and one line per face are printed.  The box-label
list built afterwards for the renderer is covered by the renderer
model. -/
def demo_face_detection (face_results : Option (List Face)) :
    Except PyRuntimeError (List FaceEvent) :=
  if pyTruthyList face_results = false then .ok [FaceEvent.failedOrNone]
  else
    match face_results with
    | none => .ok [FaceEvent.failedOrNone]
    | some faces =>
      match faceEventsOf faces 0 with
      | .error e => .error e
      | .ok evs => .ok (FaceEvent.detectedCount faces.length :: evs)

/-! ## The renderer (main.py, save_image_with_annotations, lines 50-72)

An image is a grid of colour values, row `y` then column `x`.  PIL
drawing calls become pixel-grid updates; text glyph shapes, a library
internal, are abstracted as a font parameter mapping a string to the
inked pixel offsets. -/

/-- A decoded image: rows of pixel colours. -/
abbrev Image := List (List String)

/-- Apply a pixel function everywhere, passing coordinates. -/
def mapPixels (img : Image) (f : Int → Int → String → String) : Image :=
  img.mapIdx (fun y row => row.mapIdx (fun x c => f (Int.ofNat x) (Int.ofNat y) c))

/-- Set one pixel (out-of-bounds coordinates touch nothing, as PIL
clips drawing to the canvas). -/
def setPixel (img : Image) (x y : Int) (c : String) : Image :=
  mapPixels img (fun px py old => if px = x ∧ py = y then c else old)

/-- Membership of pixel (px,py) in the outline band of the rectangle
from (x0,y0) to (x1,y1) drawn with width 2, which PIL extends inward
from the boundary. -/
def onRectOutline (x0 y0 x1 y1 px py : Int) : Bool :=
  decide ((x0 ≤ px ∧ px ≤ x1 ∧ y0 ≤ py ∧ py ≤ y1) ∧
    (px ≤ x0 + 1 ∨ x1 - 1 ≤ px ∨ py ≤ y0 + 1 ∨ y1 - 1 ≤ py))

/-- `img_draw.rectangle([(x0,y0),(x1,y1)], outline=c, width=2)`. -/
def drawRectangle (img : Image) (x0 y0 x1 y1 : Int) (c : String) : Image :=
  mapPixels img (fun px py old => if onRectOutline x0 y0 x1 y1 px py then c else old)

/-- A font, abstracted to the pixel offsets it inks for a string. -/
structure Font where
  glyph : String → List (Int × Int)

/-- `img_draw.text((x, y), s, fill=c, font=f)`. -/
def drawText (img : Image) (x y : Int) (s : String) (f : Font) (c : String) : Image :=
  (f.glyph s).foldl (fun im p => setPixel im (x + p.1) (y + p.2) c) img

/-- An element of the `annotations` list the demos build:
`{"box": [x, y, w, h], "label": text}`. -/
structure BoxLabel where
  box : Rect
  label : String
deriving DecidableEq, Repr

/-- Failure of `ImageFont.truetype` — PIL raises `OSError` (= `IOError`)
when the font file cannot be loaded. -/
inductive IOErr where
  | ioError
deriving DecidableEq, Repr

/-- main.py lines 55-58: `try: font = ImageFont.truetype("arial.ttf", 15)
except IOError: font = ImageFont.load_default()`.  The second argument
is the built-in bitmap font `load_default` returns. -/
def selectFont : Except IOErr Font → Font → Font
  | .ok f, _ => f
  | .error _, dflt => dflt

/-- Loop body of main.py lines 60-68: draw the outlined rectangle from
(x,y) to (x+w, y+h) in red with width 2, then the label at (x, y-20)
in red. -/
def drawBoxLabel (font : Font) (img : Image) (a : BoxLabel) : Image :=
  let img1 := drawRectangle img a.box.x a.box.y (a.box.x + a.box.w) (a.box.y + a.box.h) "red"
  drawText img1 a.box.x (a.box.y - 20) a.label font "red"

/-- Observable outcome of save_image_with_annotations: the final pixel
content of the image object the caller passed in (the function draws on
it via `ImageDraw.Draw(original_image)`), the image written to
`output_path`, and the returned image.  All three are the same object
in the code. -/
structure RenderResult where
  callerImage : Image
  savedImage : Image
  returned : Image
deriving DecidableEq, Repr

/-- main.py lines 50-72.  The truetype outcome and the built-in default
font are environment inputs.  The try/except around font loading means
the function itself never raises on box/label data: the result is
always `.ok`. -/
def save_image_with_annotations (truetype : Except IOErr Font) (defaultFont : Font)
    (original_image : Image) (annotations : List BoxLabel) :
    Except IOErr RenderResult :=
  let font := selectFont truetype defaultFont
  let drawn := annotations.foldl (drawBoxLabel font) original_image
  .ok { callerImage := drawn, savedImage := drawn, returned := drawn }

/-- PIL `Image.copy()`: an independent image object with the same pixel
content. -/
def copyImage (img : Image) : Image := img

/-- The call shape of the three demo call sites
(main.py lines 164, 246, 334):
`save_image_with_annotations(img.copy(), annotations, path)`.  The first
component is the caller's own `img` after the call: the renderer drew on
the copy, a distinct object, so the caller's pixels are untouched. -/
def demoCallRender (truetype : Except IOErr Font) (defaultFont : Font)
    (img : Image) (annotations : List BoxLabel) :
    Image × Except IOErr RenderResult :=
  (img, save_image_with_annotations truetype defaultFont (copyImage img) annotations)

/-- A font inking no pixels, used for concrete evaluations. -/
def blankFont : Font := { glyph := fun _ => [] }

/-- A 3-by-3 all-white image. -/
def white3 : Image := List.replicate 3 (List.replicate 3 "white")

/-- A 3-by-3 all-red image. -/
def red3 : Image := List.replicate 3 (List.replicate 3 "red")

/-! ## Claim C1: OCR bounding box to rectangle -/

/-- Claim C1, counterexample.  The rectangle demo_ocr derives is read
off fixed indices of the bounding box, not computed by min/max: for the
polygon (10,10),(5,10),(5,20),(10,20) — a valid 8-number bounding box
whose points are not listed top-left first — the code produces
x = 10, w = -5, while the minimal enclosing rectangle has x = 5, w = 5. -/
theorem ocrDerivedRect_not_min_enclosing :
    ocrDerivedRect { x1 := 10, y1 := 10, x2 := 5, y2 := 10,
                     x3 := 5, y3 := 20, x4 := 10, y4 := 20 } ≠
      specMinEnclosingRect { x1 := 10, y1 := 10, x2 := 5, y2 := 10,
                             x3 := 5, y3 := 20, x4 := 10, y4 := 20 } := by
  decide

/-- Claim C1, amended: the derived rectangle is x = bb[0], y = bb[1],
w = bb[2] - bb[0], h = bb[5] - bb[1], which is not in general the
minimal enclosing axis-aligned rectangle of the polygon; it does equal
the minimal enclosing rectangle in the canonical case, when the 4
points list an axis-aligned rectangle in the order top-left, top-right,
bottom-right, bottom-left. -/
theorem ocrDerivedRect_min_enclosing_of_canonical (bb : BBox8)
    (h41 : bb.x4 = bb.x1) (h32 : bb.x3 = bb.x2)
    (h21 : bb.y2 = bb.y1) (h43 : bb.y4 = bb.y3)
    (hx : bb.x1 ≤ bb.x2) (hy : bb.y1 ≤ bb.y3) :
    ocrDerivedRect bb = specMinEnclosingRect bb := by
  simp only [ocrDerivedRect, specMinEnclosingRect, h41, h32, h21, h43, Rect.mk.injEq]
  refine ⟨?_, ?_, ?_, ?_⟩ <;> omega

/-- Claim C1, witness: the canonical box (0,0),(4,0),(4,3),(0,3). -/
theorem ocrDerivedRect_min_enclosing_witness :
    ocrDerivedRect { x1 := 0, y1 := 0, x2 := 4, y2 := 0,
                     x3 := 4, y3 := 3, x4 := 0, y4 := 3 } =
      specMinEnclosingRect { x1 := 0, y1 := 0, x2 := 4, y2 := 0,
                             x3 := 4, y3 := 3, x4 := 0, y4 := 3 } :=
  ocrDerivedRect_min_enclosing_of_canonical _ rfl rfl rfl rfl (by decide) (by decide)

/-! ## Claim C9: default feature set -/

/-- Claim C9: with the features argument omitted (Python default
`None`), explicit `None`, or the empty list, analyze_image sends
exactly "tags,objects,caption" as the features query parameter. -/
theorem analyze_image_default_features (endpoint : String) (resp : HttpResponse) :
    (analyze_image endpoint none resp).request.features = "tags,objects,caption" ∧
    (analyze_image endpoint (some []) resp).request.features = "tags,objects,caption" := by
  exact ⟨rfl, rfl⟩

/-! ## Claim C2: non-2xx analyze response -/

/-- Claim C2, counterexample.  The claim says the failed call surfaces
an ApiError carrying the original status code and response body.  In
the code the `HTTPError` from `raise_for_status` is caught by the
blanket `except`, which prints a message and returns `None`: two 404
responses whose bodies differ give bit-identical observable outcomes,
so no part of the outcome carries the response body, and the caller
receives `None` rather than any error value. -/
theorem analyze_image_discards_body :
    analyze_image "e" none { status := 404, body := "bodyA" } =
      analyze_image "e" none { status := 404, body := "bodyB" } ∧
    ("bodyA" : String) ≠ "bodyB" := by
  exact ⟨rfl, by decide⟩

/-- Claim C2, amended: on transport success with an error status
(4xx/5xx), analyze_image returns `None` — the result is absent, not a
default value — after printing a single error message containing the
status code, and exactly one HTTP request is issued (no retry).  No
ApiError value carrying the status and body reaches the caller. -/
theorem analyze_image_error_status (endpoint : String)
    (features : Option (List String)) (resp : HttpResponse)
    (h4 : 400 ≤ resp.status) (h6 : resp.status < 600) :
    (analyze_image endpoint features resp).result = none ∧
    (analyze_image endpoint features resp).httpRequests = 1 ∧
    (analyze_image endpoint features resp).printed =
      ["Error in analyze_image: " ++ toString resp.status ++ " Error"] := by
  have hf : raiseForStatusFails resp.status = true := by
    unfold raiseForStatusFails
    exact decide_eq_true ⟨h4, h6⟩
  refine ⟨?_, ?_, ?_⟩ <;> simp [analyze_image, hf]

/-- Claim C2, witness: a 404 response. -/
theorem analyze_image_error_status_witness :
    (analyze_image "e" none { status := 404, body := "x" }).result = none ∧
    (analyze_image "e" none { status := 404, body := "x" }).httpRequests = 1 ∧
    (analyze_image "e" none { status := 404, body := "x" }).printed =
      ["Error in analyze_image: " ++ toString 404 ++ " Error"] :=
  analyze_image_error_status "e" none { status := 404, body := "x" }
    (by decide) (by decide)

/-! ## Claim C3: missing or empty configuration -/

/-- Claim C3, counterexample.  In main.py the configuration is read
with `os.environ[...]`, which only fails on an absent variable: with
`VISION_ENDPOINT` present but empty, the module-level load succeeds
(no ConfigError or any other failure is raised at configuration time),
refuting the claim for the empty-value case. -/
theorem mainConfigLoad_accepts_empty_endpoint :
    mainConfigLoad
        (fun n => if n = "VISION_ENDPOINT" then some "" else some "k") =
      ConfigOutcome.ok "" "k" ∧
    pyTruthy (some "") = false := by
  exact ⟨by decide, by decide⟩

/-- Claim C3, amended: OCR.py checks `if not endpoint or not key` and,
for a missing or empty value, prints a message and exits before the
client is built — zero HTTP requests are issued.  In main.py a missing
variable raises KeyError at module load, also before any network call;
an empty value, however, passes the load without any ConfigError. -/
theorem config_failure_before_network (env : String → Option String)
    (res : ImageAnalysisResult)
    (h : pyTruthy (env "VISION_ENDPOINT") = false ∨
         pyTruthy (env "VISION_KEY") = false) :
    (∃ p, OCR env res = OCROutcome.configExit p) ∧
    (OCR env res).requestCount = 0 ∧
    (env "VISION_ENDPOINT" = none →
      mainConfigLoad env = ConfigOutcome.keyError "VISION_ENDPOINT") := by
  have hocr : OCR env res = OCROutcome.configExit
      [PrintEvent.header "Missing environment variable VISION_ENDPOINT or VISION_KEY",
       PrintEvent.header "Set them before running this sample."] := by
    unfold OCR
    rw [if_pos h]
  refine ⟨⟨_, hocr⟩, ?_, ?_⟩
  · rw [hocr]; rfl
  · intro hn
    unfold mainConfigLoad
    rw [hn]

/-- Claim C3, witness: an environment with both variables absent. -/
theorem config_failure_before_network_witness :
    (∃ p, OCR (fun _ => none) { caption := none, read := none } =
      OCROutcome.configExit p) ∧
    (OCR (fun _ => none) { caption := none, read := none }).requestCount = 0 ∧
    ((fun _ : String => (none : Option String)) "VISION_ENDPOINT" = none →
      mainConfigLoad (fun _ => none) = ConfigOutcome.keyError "VISION_ENDPOINT") :=
  config_failure_before_network (fun _ => none)
    { caption := none, read := none } (Or.inl rfl)

/-! ## Claim C4: dominant emotion -/

/-- Unfolding of the Python max fold over a cons cell. -/
theorem pyMaxSnd_cons (x y : String × ℚ) (ys : List (String × ℚ)) :
    pyMaxSnd x (y :: ys) = pyMaxSnd (if y.2 > x.2 then y else x) ys := rfl

/-- The Python max fold returns an element of the list whose score
bounds every score, positioned after exactly the elements with strictly
smaller score — i.e. the first element attaining the maximum. -/
theorem pyMaxSnd_spec (x : String × ℚ) (xs : List (String × ℚ)) :
    ∃ pre post,
      x :: xs = pre ++ pyMaxSnd x xs :: post ∧
      (∀ q ∈ pre, q.2 < (pyMaxSnd x xs).2) ∧
      (∀ q ∈ x :: xs, q.2 ≤ (pyMaxSnd x xs).2) := by
  induction xs generalizing x with
  | nil =>
    refine ⟨[], [], rfl, ?_, ?_⟩
    · intro q hq; simp at hq
    · intro q hq
      have hx : q = x := by simpa using hq
      simp [hx, pyMaxSnd]
  | cons y ys ih =>
    rw [pyMaxSnd_cons]
    by_cases h : y.2 > x.2
    · rw [if_pos h]
      obtain ⟨pre, post, hsplit, hpre, hall⟩ := ih y
      have hy_le : y.2 ≤ (pyMaxSnd y ys).2 := hall y (List.mem_cons_self y ys)
      refine ⟨x :: pre, post, ?_, ?_, ?_⟩
      · rw [List.cons_append, ← hsplit]
      · intro q hq
        rcases List.mem_cons.mp hq with hqx | hq2
        · rw [hqx]; exact lt_of_lt_of_le h hy_le
        · exact hpre q hq2
      · intro q hq
        rcases List.mem_cons.mp hq with hqx | hq2
        · rw [hqx]; exact le_of_lt (lt_of_lt_of_le h hy_le)
        · exact hall q hq2
    · rw [if_neg h]
      have hyx : y.2 ≤ x.2 := le_of_not_lt h
      obtain ⟨pre, post, hsplit, hpre, hall⟩ := ih x
      have hx_le : x.2 ≤ (pyMaxSnd x ys).2 := hall x (List.mem_cons_self x ys)
      cases pre with
      | nil =>
        simp only [List.nil_append] at hsplit
        obtain ⟨hx_eq, hys⟩ := List.cons.inj hsplit
        refine ⟨[], y :: post, ?_, ?_, ?_⟩
        · rw [List.nil_append, ← hx_eq, ← hys]
        · intro q hq; simp at hq
        · intro q hq
          rcases List.mem_cons.mp hq with hqx | hq2
          · rw [hqx]; exact hx_le
          · rcases List.mem_cons.mp hq2 with hqy | hq3
            · rw [hqy]; exact le_trans hyx hx_le
            · exact hall q (List.mem_cons_of_mem x hq3)
      | cons p ps =>
        rw [List.cons_append] at hsplit
        obtain ⟨hp, hys⟩ := List.cons.inj hsplit
        have hx_lt : x.2 < (pyMaxSnd x ys).2 := by
          have := hpre p (List.mem_cons_self p ps)
          rwa [← hp] at this
        refine ⟨x :: y :: ps, post, ?_, ?_, ?_⟩
        · rw [List.cons_append, List.cons_append, ← hys]
        · intro q hq
          rcases List.mem_cons.mp hq with hqx | hq2
          · rw [hqx]; exact hx_lt
          · rcases List.mem_cons.mp hq2 with hqy | hq3
            · rw [hqy]; exact lt_of_le_of_lt hyx hx_lt
            · have : q ∈ p :: ps := by
                rw [← hp]; exact List.mem_cons_of_mem x hq3
              exact hpre q this
        · intro q hq
          rcases List.mem_cons.mp hq with hqx | hq2
          · rw [hqx]; exact hx_le
          · rcases List.mem_cons.mp hq2 with hqy | hq3
            · rw [hqy]; exact le_trans hyx hx_le
            · exact hall q (List.mem_cons_of_mem x hq3)

/-- Claim C4: for a face with a non-empty emotion map (modelled as the
map's entries in iteration order), the dominant emotion is the label of
an entry whose score bounds every score in the map, and every entry
before it scores strictly lower — so among ties for the maximum the
first-encountered label wins. -/
theorem dominantEmotion_first_max (x : String × ℚ) (xs : List (String × ℚ)) :
    ∃ best pre post,
      dominantEmotion (x :: xs) = some best.1 ∧
      x :: xs = pre ++ best :: post ∧
      (∀ q ∈ x :: xs, q.2 ≤ best.2) ∧
      (∀ q ∈ pre, q.2 < best.2) := by
  obtain ⟨pre, post, hsplit, hpre, hall⟩ := pyMaxSnd_spec x xs
  exact ⟨pyMaxSnd x xs, pre, post, rfl, hsplit, hall, hpre⟩

/-! ## Claim C5: the renderer and the caller's image -/

/-- Claim C5, counterexample.  save_image_with_annotations calls
`ImageDraw.Draw(original_image)` and draws on the very object the
caller passed: rendering one box-label onto a white 3x3 image leaves
the caller's image fully red, not pixel-for-pixel unchanged. -/
theorem render_mutates_passed_image :
    save_image_with_annotations (Except.ok blankFont) blankFont white3
        [{ box := { x := 0, y := 0, w := 2, h := 2 }, label := "a" }] =
      Except.ok { callerImage := red3, savedImage := red3, returned := red3 } ∧
    red3 ≠ white3 := by
  exact ⟨by rfl, by decide⟩

/-- Claim C5, amended: the renderer draws directly on the image object
it is given — after the call that object holds exactly the annotated
image, which is also what is saved and returned.  The demo call sites
pass `img.copy()`, so it is the callers, not the renderer, that keep
the original unchanged. -/
theorem render_draws_on_passed_image (truetype : Except IOErr Font)
    (dflt : Font) (img : Image) (anns : List BoxLabel) :
    save_image_with_annotations truetype dflt img anns =
      Except.ok
        { callerImage := anns.foldl (drawBoxLabel (selectFont truetype dflt)) img,
          savedImage := anns.foldl (drawBoxLabel (selectFont truetype dflt)) img,
          returned := anns.foldl (drawBoxLabel (selectFont truetype dflt)) img } ∧
    (demoCallRender truetype dflt img anns).1 = img := by
  exact ⟨rfl, rfl⟩

/-! ## Claim C6: zero faces versus failed detection -/

/-- Claim C6, counterexample.  demo_face_detection guards with
`if not face_results:`, which is satisfied both by `None` (the request
failed) and by the empty list (zero faces detected); both cases print
the same single message, so an empty face list is not reported
differently from a failed detection. -/
theorem face_demo_conflates_empty_and_failed :
    demo_face_detection none = demo_face_detection (some []) ∧
    demo_face_detection none = Except.ok [FaceEvent.failedOrNone] ∧
    (none : Option (List Face)) ≠ some [] := by
  refine ⟨rfl, rfl, by simp⟩

/-- Claim C6, amended: absent results are `None` rather than default
values, but the truthiness guard conflates absence with zero
detections: whenever `face_results` is falsy — failed call or empty
list alike — the demo prints exactly the one combined message
"Failed to detect faces or no faces found." and returns. -/
theorem face_demo_truthiness_guard (face_results : Option (List Face))
    (h : pyTruthyList face_results = false) :
    demo_face_detection face_results = Except.ok [FaceEvent.failedOrNone] := by
  unfold demo_face_detection
  rw [if_pos h]

/-- Claim C6, witness: the failed-call case. -/
theorem face_demo_truthiness_guard_witness :
    demo_face_detection none = Except.ok [FaceEvent.failedOrNone] :=
  face_demo_truthiness_guard none rfl

/-! ## Claim C7: font fallback and render totality -/

/-- Claim C7: for every truetype outcome — the `IOError` failure
included — and every box-label list, save_image_with_annotations
returns successfully, and on font-load failure it behaves exactly as
with the built-in default font: the error branch never escapes as a
failure of the render. -/
theorem render_font_fallback_total (dflt : Font) (img : Image)
    (anns : List BoxLabel) :
    (∀ truetype : Except IOErr Font,
      ∃ r, save_image_with_annotations truetype dflt img anns = Except.ok r) ∧
    save_image_with_annotations (Except.error IOErr.ioError) dflt img anns =
      save_image_with_annotations (Except.ok dflt) dflt img anns := by
  constructor
  · intro truetype
    exact ⟨_, rfl⟩
  · rfl

/-! ## Claim C8: empty annotation list -/

/-- Claim C8: rendering with an empty annotation list draws nothing —
the image written to the output path, the caller's image and the
returned image all carry exactly the input pixel content (file-format
re-encoding on save lies below this pixel-level model, matching the
claim's "aside from container metadata"). -/
theorem render_empty_is_identity (truetype : Except IOErr Font)
    (dflt : Font) (img : Image) :
    save_image_with_annotations truetype dflt img [] =
      Except.ok { callerImage := img, savedImage := img, returned := img } := by
  rfl

/-! ## Claim C10: OCR.py reads only the first block -/

/-- Claim C10: once the config check passes, OCR.py walks
`result.read.blocks[0].lines` unguarded whenever `result.read` is not
`None`: with an empty `blocks` list the run dies with `IndexError`
(after the headers are printed, one request issued), and otherwise the
read lines printed are exactly those of the first block — the printed
events are a function of `blocks[0]` alone, so lines of any later
block never appear. -/
theorem ocr_prints_only_first_block (env : String → Option String)
    (res : ImageAnalysisResult)
    (hE : pyTruthy (env "VISION_ENDPOINT") = true)
    (hK : pyTruthy (env "VISION_KEY") = true) :
    (∀ r, res.read = some r → r.blocks = [] →
      OCR env res = OCROutcome.indexError (captionEvents res) 1) ∧
    (∀ r b rest, res.read = some r → r.blocks = b :: rest →
      OCR env res =
        OCROutcome.done (captionEvents res ++ b.lines.flatMap lineEvents) 1) := by
  constructor
  · intro r hr hb
    simp [OCR, hE, hK, hr, hb]
  · intro r b rest hr hb
    simp [OCR, hE, hK, hr, hb]

/-- Claim C10, witness: a read result with zero blocks raises
`IndexError`. -/
theorem ocr_prints_only_first_block_witness :
    OCR (fun _ => some "v") { caption := none, read := some { blocks := [] } } =
      OCROutcome.indexError
        (captionEvents { caption := none, read := some { blocks := [] } }) 1 :=
  (ocr_prints_only_first_block (fun _ => some "v")
      { caption := none, read := some { blocks := [] } }
      (by decide) (by decide)).1
    { blocks := [] } rfl rfl
